import Mathlib

/-!
Shallow embedding of the email-subscription capability of the
`rust-for-js-devs` repository: the Subscribe handler
(`src/pages/api/subscribe` — two textually identical variants appear in the
repository) and the Count handler (`src/pages/api/get-count.ts`), both
operating on one Redis set stored under the key `"emails"`.
-/

/-- The persisted store state: the members of the Redis set `"emails"`,
in insertion order.  Redis set semantics guarantee no duplicate members;
here that is a provable invariant of the modelled operations rather than
a typing assumption. -/
structure RedisState where
  emails : List String
  deriving DecidableEq

/-- Redis `SMEMBERS emails`: returns all members of the set. -/
def sMembers (s : RedisState) : List String :=
  s.emails

/-- Redis `SADD key member`: adds the member to the set unless it is
already present (set semantics). -/
def sAdd (s : RedisState) (e : String) : RedisState :=
  if e ∈ s.emails then s else ⟨s.emails ++ [e]⟩

/-- Redis `SCARD emails`: the number of members of the set. -/
def sCard (s : RedisState) : Nat :=
  s.emails.length

/-- A store command issued by a handler, in order.  `connect` is
`redis.connect()`; the others are the Redis set primitives the handlers
call. -/
inductive RedisOp where
  | connect
  | sMembers (key : String)
  | sAdd (key : String) (member : String)
  | sCard (key : String)
  deriving DecidableEq

/-- Effect of one store command on the modelled state.  `connect`,
`sMembers` and `sCard` are reads; only `sAdd` mutates, and only the
`"emails"` set is modelled (it is the only key either handler uses). -/
def applyOp (s : RedisState) : RedisOp → RedisState
  | .connect => s
  | .sMembers _ => s
  | .sAdd k m => if k = "emails" then sAdd s m else s
  | .sCard _ => s

/-- Effect of a handler run: its store commands applied in order. -/
def applyOps (s : RedisState) (ops : List RedisOp) : RedisState :=
  ops.foldl applyOp s

/-- The value of the `message` field of a response body: the Subscribe
handler puts a string there, the Count handler a (non-negative) count. -/
inductive JsonVal where
  | str (s : String)
  | num (n : Nat)
  deriving DecidableEq

/-- The JSON response body `JSON.stringify({ message: ... })`. -/
structure Body where
  message : JsonVal
  deriving DecidableEq

/-- An HTTP response as the handlers build it. -/
structure Response where
  body : Body
  status : Nat
  deriving DecidableEq

/-- `new Response(body)` with no init: the Fetch API defaults the status
to 200.  Neither handler ever passes a status. -/
def Response.new (b : Body) : Response :=
  ⟨b, 200⟩

/-- The literal body message on the missing-`email` path:
`'Faltan campos requeridos'` (Spanish for "Missing required fields"). -/
def missingFieldsMsg : String := "Faltan campos requeridos"

/-- The literal body message on the duplicate path:
`'Ya estás suscrito'` (Spanish for "Already subscribed"). -/
def alreadySubscribedMsg : String := "Ya estás suscrito"

/-- The literal body message on the insertion path:
`'¡Éxito!'` (Spanish for "Success"). -/
def successMsg : String := "¡Éxito!"

/-- One handler invocation: the response it returns and the store
commands it issued, in order. -/
structure HandlerRun where
  resp : Response
  ops : List RedisOp
  deriving DecidableEq

/-- The `data.email` field restricted to the string-typed protocol of the
spec: `none` models an absent field, `some e` a string value.  JavaScript
falsiness of `data.email` (`!data.email`) then means: absent, or the
empty string. -/
def strFalsy : Option String → Bool
  | none => true
  | some e => e == ""

/-- The Subscribe handler `POST` of `src/pages/api/subscribe`
(the variant with the `APIRoute` annotation), over a string-typed
`email` field:
if `!data.email` it returns the missing-fields body at once (no store
command); otherwise it connects, reads `sMembers 'emails'`, and either
answers "already subscribed" (member) or issues
`sAdd 'emails' data.email` and answers success. -/
def POST (email : Option String) (s : RedisState) : HandlerRun :=
  if strFalsy email then
    ⟨Response.new ⟨.str missingFieldsMsg⟩, []⟩
  else
    let e := email.getD ""
    let emails := sMembers s
    if e ∈ emails then
      ⟨Response.new ⟨.str alreadySubscribedMsg⟩, [.connect, .sMembers "emails"]⟩
    else
      ⟨Response.new ⟨.str successMsg⟩,
        [.connect, .sMembers "emails", .sAdd "emails" e]⟩

/-- The other Subscribe handler variant in the repository (the one typing
its argument `{ request }: { request: any }`).  Its body is line-for-line
the same as `POST`. -/
def POSTv009 (email : Option String) (s : RedisState) : HandlerRun :=
  if strFalsy email then
    ⟨Response.new ⟨.str missingFieldsMsg⟩, []⟩
  else
    let e := email.getD ""
    let emails := sMembers s
    if e ∈ emails then
      ⟨Response.new ⟨.str alreadySubscribedMsg⟩, [.connect, .sMembers "emails"]⟩
    else
      ⟨Response.new ⟨.str successMsg⟩,
        [.connect, .sMembers "emails", .sAdd "emails" e]⟩

/-- The store state after one Subscribe call: the handler's commands
applied to the initial state. -/
def POSTstore (email : Option String) (s : RedisState) : RedisState :=
  applyOps s (POST email s).ops

/-- The Count handler `GET` of `src/pages/api/get-count.ts`: connects,
reads `sCard 'emails'` and returns `{ message: count }`. -/
def GET (s : RedisState) : HandlerRun :=
  ⟨Response.new ⟨.num (sCard s)⟩, [.connect, .sCard "emails"]⟩

/-- A sequence of Subscribe calls, updating the store left to right. -/
def subscribeAll (es : List String) (s : RedisState) : RedisState :=
  es.foldl (fun st e => POSTstore (some e) st) s

/-- One request against either endpoint of the API. -/
inductive ApiCall where
  | subscribe (email : Option String)
  | count
  deriving DecidableEq

/-- Store effect of one API request. -/
def runCall (s : RedisState) : ApiCall → RedisState
  | .subscribe email => applyOps s (POST email s).ops
  | .count => applyOps s (GET s).ops

/-- Store effect of a sequence of API requests. -/
def runCalls (calls : List ApiCall) (s : RedisState) : RedisState :=
  calls.foldl runCall s

/-! ### The JavaScript-level view of the Subscribe validation

The handler validates with `if (!data.email)` — JavaScript falsiness with
no type check — and, past it, decides between `emails.includes(data.email)`
and `redis.sAdd('emails', data.email)`.  To state claims about non-string
`email` values we model the parsed JSON value as JavaScript sees it. -/

/-- A JavaScript value that `data.email` can hold after `request.json()`
(numbers modelled as integers; arrays and objects only matter for their
truthiness and non-string identity here). -/
inductive JSValue where
  | undefined
  | null
  | boolean (b : Bool)
  | number (n : Int)
  | string (s : String)
  | array
  | object
  deriving DecidableEq

/-- JavaScript truthiness: `undefined`, `null`, `false`, `0` and `''` are
falsy; every other value, arrays and objects included, is truthy. -/
def truthy : JSValue → Bool
  | .undefined => false
  | .null => false
  | .boolean b => b
  | .number n => n != 0
  | .string s => s != ""
  | .array => true
  | .object => true

/-- Whether a JavaScript value is a string. -/
def JSValue.isString : JSValue → Bool
  | .string _ => true
  | _ => false

/-- `emails.includes(data.email)` where `emails` is the list of strings
returned by `sMembers`: `Array.prototype.includes` compares with
SameValueZero, so a non-string value never equals a stored string. -/
def includesJS (emails : List String) : JSValue → Bool
  | .string s => emails.contains s
  | _ => false

/-- Which path the Subscribe handler takes, seen over JavaScript values:
`!data.email` selects the missing-fields path, otherwise membership of
the stored set selects the already-subscribed path, otherwise the value
is handed to `sAdd`. -/
inductive SubPath where
  | missing
  | already
  | inserted (v : JSValue)
  deriving DecidableEq

/-- The Subscribe handler's branch structure over a JavaScript-valued
`email` field, transcribed from the source conditionals. -/
def jsSubscribePath (v : JSValue) (emails : List String) : SubPath :=
  if !(truthy v) then .missing
  else if includesJS emails v then .already
  else .inserted v

/-! ### Basic lemmas about the store primitives and one Subscribe call -/

/-- Membership after `sAdd`: the old members plus the added one. -/
theorem mem_sAdd (s : RedisState) (e x : String) :
    x ∈ (sAdd s e).emails ↔ x ∈ s.emails ∨ x = e := by
  unfold sAdd
  by_cases hm : e ∈ s.emails
  · rw [if_pos hm]
    constructor
    · exact Or.inl
    · rintro (hx | rfl)
      · exact hx
      · exact hm
  · rw [if_neg hm]
    simp [List.mem_append]

/-- Adding a member that is already present changes nothing. -/
theorem sAdd_mem (s : RedisState) (e : String) (h : e ∈ s.emails) :
    sAdd s e = s := by
  unfold sAdd
  rw [if_pos h]

/-- The added member is a member afterwards. -/
theorem mem_sAdd_self (s : RedisState) (e : String) : e ∈ (sAdd s e).emails :=
  (mem_sAdd s e e).mpr (Or.inr rfl)

/-- `sAdd` is idempotent. -/
theorem sAdd_idem (s : RedisState) (e : String) :
    sAdd (sAdd s e) e = sAdd s e :=
  sAdd_mem _ e (mem_sAdd_self s e)

/-- `sAdd` preserves the no-duplicates invariant of the set. -/
theorem sAdd_nodup (s : RedisState) (e : String) (h : s.emails.Nodup) :
    (sAdd s e).emails.Nodup := by
  unfold sAdd
  by_cases hm : e ∈ s.emails
  · rw [if_pos hm]
    exact h
  · rw [if_neg hm]
    simp [List.nodup_append, h, hm]

/-- The members of the store after `sAdd`, as a finite set. -/
theorem toFinset_sAdd (s : RedisState) (e : String) :
    (sAdd s e).emails.toFinset = insert e s.emails.toFinset := by
  ext x
  simp [mem_sAdd, or_comm]

/-- A falsy `email` field leaves the store untouched. -/
theorem POSTstore_falsy (email : Option String) (s : RedisState)
    (h : strFalsy email = true) : POSTstore email s = s := by
  simp [POSTstore, POST, h, applyOps]

/-- A non-empty `email` drives the store exactly as a Redis `SADD`:
if present nothing changes (only reads are issued), otherwise the member
is inserted. -/
theorem POSTstore_some (s : RedisState) (e : String) (h : e ≠ "") :
    POSTstore (some e) s = sAdd s e := by
  by_cases hm : e ∈ s.emails
  · simp [POSTstore, POST, strFalsy, h, sMembers, hm, applyOps, applyOp, sAdd]
  · simp [POSTstore, POST, strFalsy, h, sMembers, hm, applyOps, applyOp, sAdd]

/-- A Subscribe call run as an `ApiCall` is `POSTstore`. -/
theorem runCall_subscribe (s : RedisState) (email : Option String) :
    runCall s (.subscribe email) = POSTstore email s := rfl

/-- A Count call never changes the store. -/
theorem runCall_count (s : RedisState) : runCall s .count = s := rfl

/-- Each single API call preserves the no-duplicates invariant. -/
theorem runCall_nodup (s : RedisState) (c : ApiCall) (h : s.emails.Nodup) :
    (runCall s c).emails.Nodup := by
  cases c with
  | count =>
    rw [runCall_count]
    exact h
  | subscribe email =>
    rw [runCall_subscribe]
    cases email with
    | none =>
      rw [POSTstore_falsy none s rfl]
      exact h
    | some e =>
      by_cases he : e = ""
      · subst he
        rw [POSTstore_falsy (some "") s (by decide)]
        exact h
      · rw [POSTstore_some s e he]
        exact sAdd_nodup s e h

/-- Unfolding one step of a Subscribe sequence. -/
theorem subscribeAll_cons (e : String) (es : List String) (s : RedisState) :
    subscribeAll (e :: es) s = subscribeAll es (POSTstore (some e) s) := rfl

/-- A Subscribe sequence preserves the no-duplicates invariant. -/
theorem nodup_subscribeAll (es : List String) (s : RedisState)
    (h : s.emails.Nodup) : (subscribeAll es s).emails.Nodup := by
  induction es generalizing s with
  | nil => exact h
  | cons e es ih =>
    rw [subscribeAll_cons]
    by_cases he : e = ""
    · subst he
      rw [POSTstore_falsy (some "") s (by decide)]
      exact ih s h
    · rw [POSTstore_some s e he]
      exact ih (sAdd s e) (sAdd_nodup s e h)

/-- After subscribing a sequence of non-empty emails the stored set is
the old set united with the sequence. -/
theorem toFinset_subscribeAll (es : List String) (s : RedisState)
    (hne : ∀ e ∈ es, e ≠ "") :
    (subscribeAll es s).emails.toFinset = s.emails.toFinset ∪ es.toFinset := by
  induction es generalizing s with
  | nil => simp [subscribeAll]
  | cons e es ih =>
    have he : e ≠ "" := hne e (List.mem_cons_self e es)
    rw [subscribeAll_cons, POSTstore_some s e he,
      ih (sAdd s e) (fun x hx => hne x (List.mem_cons_of_mem e hx)),
      toFinset_sAdd]
    ext x
    simp

/-! ### Claims -/

/-- C1 counterexample: on the missing-`email` path the handler's literal
body message is the localized 'Faltan campos requeridos', not the English
"Missing required fields" the claim quotes. -/
theorem subscribe_missing_message_is_localized :
    (POST none ⟨[]⟩).resp.body.message ≠ JsonVal.str "Missing required fields" := by
  decide

/-- C1 (amended: the missing-fields body carries the localized literal
`missingFieldsMsg` = 'Faltan campos requeridos'): for every request whose
`email` field is absent or empty (falsy), the Subscribe handler returns
the missing-fields message, issues no store command at all — no
connection, no query, no insertion — and leaves the Subscriber Set
unchanged. -/
theorem subscribe_missing_fields_no_store_access
    (email : Option String) (s : RedisState) (h : strFalsy email = true) :
    (POST email s).resp.body.message = .str missingFieldsMsg
    ∧ (POST email s).ops = []
    ∧ POSTstore email s = s := by
  refine ⟨?_, ?_, POSTstore_falsy email s h⟩ <;> simp [POST, Response.new, h]

/-- C1 witness: the theorem applied to an absent `email` over the empty
store. -/
theorem subscribe_missing_fields_no_store_access_witness :
    strFalsy none = true
    ∧ ((POST none ⟨[]⟩).resp.body.message = .str missingFieldsMsg
       ∧ (POST none ⟨[]⟩).ops = []
       ∧ POSTstore none ⟨[]⟩ = ⟨[]⟩) :=
  ⟨rfl, subscribe_missing_fields_no_store_access none ⟨[]⟩ rfl⟩

/-- C2 counterexample: on the insertion path the handler's literal body
message is the localized '¡Éxito!', not the English "Success" the claim
quotes. -/
theorem subscribe_success_message_is_localized :
    (POST (some "a@x.com") ⟨[]⟩).resp.body.message ≠ JsonVal.str "Success" := by
  decide

/-- C2 (amended: the success body carries the localized literal
`successMsg` = '¡Éxito!'): for every non-empty email not already a member
of the Subscriber Set, Subscribe adds it — the final member list is the
initial one plus the new email — and returns the success message. -/
theorem subscribe_new_email_inserts (s : RedisState) (e : String)
    (h1 : e ≠ "") (h2 : e ∉ s.emails) :
    (POST (some e) s).resp.body.message = .str successMsg
    ∧ (POSTstore (some e) s).emails = s.emails ++ [e] := by
  constructor
  · simp [POST, Response.new, strFalsy, h1, sMembers, h2]
  · rw [POSTstore_some s e h1]
    simp [sAdd, h2]

/-- C2 witness: the theorem applied to a fresh email over the empty
store. -/
theorem subscribe_new_email_inserts_witness :
    "a@x.com" ≠ ""
    ∧ "a@x.com" ∉ (⟨[]⟩ : RedisState).emails
    ∧ ((POST (some "a@x.com") ⟨[]⟩).resp.body.message = .str successMsg
       ∧ (POSTstore (some "a@x.com") ⟨[]⟩).emails = [] ++ ["a@x.com"]) :=
  ⟨by decide, by decide,
    subscribe_new_email_inserts ⟨[]⟩ "a@x.com" (by decide) (by decide)⟩

/-- C3 counterexample: on the duplicate path the handler's literal body
message is the localized 'Ya estás suscrito', not the English
"Already subscribed" the claim quotes. -/
theorem subscribe_already_message_is_localized :
    (POST (some "a@x.com") ⟨["a@x.com"]⟩).resp.body.message
      ≠ JsonVal.str "Already subscribed" := by
  decide

/-- C3 (amended: the duplicate body carries the localized literal
`alreadySubscribedMsg` = 'Ya estás suscrito'): for every non-empty email
already a member of the Subscriber Set, Subscribe returns the
already-subscribed message and performs no mutation: the set after the
call equals the set before it. -/
theorem subscribe_duplicate_no_mutation (s : RedisState) (e : String)
    (h1 : e ≠ "") (h2 : e ∈ s.emails) :
    (POST (some e) s).resp.body.message = .str alreadySubscribedMsg
    ∧ POSTstore (some e) s = s := by
  constructor
  · simp [POST, Response.new, strFalsy, h1, sMembers, h2]
  · rw [POSTstore_some s e h1]
    exact sAdd_mem s e h2

/-- C3 witness: the theorem applied to an email already stored. -/
theorem subscribe_duplicate_no_mutation_witness :
    "a@x.com" ≠ ""
    ∧ "a@x.com" ∈ (⟨["a@x.com"]⟩ : RedisState).emails
    ∧ ((POST (some "a@x.com") ⟨["a@x.com"]⟩).resp.body.message
        = .str alreadySubscribedMsg
       ∧ POSTstore (some "a@x.com") ⟨["a@x.com"]⟩ = ⟨["a@x.com"]⟩) :=
  ⟨by decide, by decide,
    subscribe_duplicate_no_mutation ⟨["a@x.com"]⟩ "a@x.com" (by decide) (by decide)⟩

/-- C4: for every `email` field (absent, empty or any string) and every
initial store, running Subscribe twice in sequence leaves the store in
the same final state as running it once. -/
theorem subscribe_idempotent_on_store (email : Option String) (s : RedisState) :
    POSTstore email (POSTstore email s) = POSTstore email s := by
  cases email with
  | none =>
    rw [POSTstore_falsy none s rfl, POSTstore_falsy none s rfl]
  | some e =>
    by_cases he : e = ""
    · subst he
      rw [POSTstore_falsy (some "") s (by decide),
        POSTstore_falsy (some "") s (by decide)]
    · rw [POSTstore_some s e he, POSTstore_some (sAdd s e) e he]
      exact sAdd_idem s e

/-- C10: the two Subscribe handler variants in the repository are
behaviorally equivalent: on every `email` field and store state they
return the same response and issue the same store commands (hence leave
the store in the same final state). -/
theorem subscribe_variants_equivalent (email : Option String) (s : RedisState) :
    POSTv009 email s = POST email s := rfl

/-- C5: starting from a duplicate-free store, subscribing a sequence of
non-empty emails none of which is already stored makes the Count handler
report the pre-existing count plus the number of distinct emails in the
sequence; when the sequence has no repeats that is exactly the
pre-existing count plus N. -/
theorem count_after_subscribes (s : RedisState) (es : List String)
    (hnd : s.emails.Nodup) (hne : ∀ e ∈ es, e ≠ "")
    (hnew : ∀ e ∈ es, e ∉ s.emails) :
    (GET (subscribeAll es s)).resp.body.message
      = .num (sCard s + es.dedup.length)
    ∧ (es.Nodup →
        (GET (subscribeAll es s)).resp.body.message
          = .num (sCard s + es.length)) := by
  have hdisj : Disjoint s.emails.toFinset es.toFinset := by
    rw [Finset.disjoint_left]
    intro a ha hb
    exact hnew a (List.mem_toFinset.mp hb) (List.mem_toFinset.mp ha)
  have hnd2 := nodup_subscribeAll es s hnd
  have hcard : sCard (subscribeAll es s) = sCard s + es.dedup.length := by
    unfold sCard
    rw [← List.toFinset_card_of_nodup hnd2, toFinset_subscribeAll es s hne,
      Finset.card_union_of_disjoint hdisj, List.toFinset_card_of_nodup hnd,
      List.card_toFinset]
  constructor
  · simp [GET, Response.new, hcard]
  · intro hn
    simp [GET, Response.new, hcard, List.dedup_eq_self.mpr hn]

/-- C5 witness: one pre-existing subscriber, two fresh distinct emails. -/
theorem count_after_subscribes_witness :
    (⟨["a@x.com"]⟩ : RedisState).emails.Nodup
    ∧ (∀ e ∈ ["b@y.com", "c@z.com"], e ≠ "")
    ∧ (∀ e ∈ ["b@y.com", "c@z.com"], e ∉ (⟨["a@x.com"]⟩ : RedisState).emails)
    ∧ ((GET (subscribeAll ["b@y.com", "c@z.com"] ⟨["a@x.com"]⟩)).resp.body.message
        = .num (sCard ⟨["a@x.com"]⟩
            + (["b@y.com", "c@z.com"] : List String).dedup.length)
       ∧ ((["b@y.com", "c@z.com"] : List String).Nodup →
          (GET (subscribeAll ["b@y.com", "c@z.com"] ⟨["a@x.com"]⟩)).resp.body.message
            = .num (sCard ⟨["a@x.com"]⟩
                + (["b@y.com", "c@z.com"] : List String).length))) :=
  ⟨by decide, by decide, by decide,
    count_after_subscribes ⟨["a@x.com"]⟩ ["b@y.com", "c@z.com"]
      (by decide) (by decide) (by decide)⟩

/-- C6: the Count handler is read-only — its store commands (connect and
`sCard`) leave every store unchanged — and it returns `{ message: count }`
with the count a natural number equal, on any duplicate-free store (the
invariant every reachable store satisfies), to the cardinality of the
Subscriber Set. -/
theorem count_handler_readonly_cardinality (s : RedisState)
    (h : s.emails.Nodup) :
    applyOps s (GET s).ops = s
    ∧ (GET s).resp.body.message = .num (sCard s)
    ∧ sCard s = s.emails.toFinset.card :=
  ⟨rfl, rfl, (List.toFinset_card_of_nodup h).symm⟩

/-- C6 witness: the theorem applied to a two-subscriber store. -/
theorem count_handler_readonly_cardinality_witness :
    (⟨["a@x.com", "b@y.com"]⟩ : RedisState).emails.Nodup
    ∧ (applyOps ⟨["a@x.com", "b@y.com"]⟩ (GET ⟨["a@x.com", "b@y.com"]⟩).ops
        = ⟨["a@x.com", "b@y.com"]⟩
       ∧ (GET ⟨["a@x.com", "b@y.com"]⟩).resp.body.message
          = .num (sCard ⟨["a@x.com", "b@y.com"]⟩)
       ∧ sCard ⟨["a@x.com", "b@y.com"]⟩
          = (⟨["a@x.com", "b@y.com"]⟩ : RedisState).emails.toFinset.card) :=
  ⟨by decide, count_handler_readonly_cardinality ⟨["a@x.com", "b@y.com"]⟩ (by decide)⟩

/-- C7: the uniqueness invariant — no two identical strings in the
Subscriber Set — is preserved by every sequence of Subscribe and Count
requests from any store satisfying it. -/
theorem subscriber_set_uniqueness_invariant (calls : List ApiCall)
    (s : RedisState) (h : s.emails.Nodup) :
    (runCalls calls s).emails.Nodup := by
  induction calls generalizing s with
  | nil => exact h
  | cons c cs ih => exact ih (runCall s c) (runCall_nodup s c h)

/-- C7 witness: a mixed request sequence with a duplicate subscribe and a
missing-field subscribe over a one-subscriber store. -/
theorem subscriber_set_uniqueness_invariant_witness :
    (⟨["b@y.com"]⟩ : RedisState).emails.Nodup
    ∧ (runCalls
        [.subscribe (some "a@x.com"), .count,
          .subscribe (some "a@x.com"), .subscribe none]
        ⟨["b@y.com"]⟩).emails.Nodup :=
  ⟨by decide,
    subscriber_set_uniqueness_invariant
      [.subscribe (some "a@x.com"), .count,
        .subscribe (some "a@x.com"), .subscribe none]
      ⟨["b@y.com"]⟩ (by decide)⟩

/-- C8: every response of the Subscribe handler — missing-fields,
already-subscribed and success paths alike — and of the Count handler
carries HTTP status 200; no path sets any other status (the handlers
build `new Response(body)` with the Fetch API default). -/
theorem all_responses_status_200 (email : Option String) (s : RedisState) :
    (POST email s).resp.status = 200 ∧ (GET s).resp.status = 200 := by
  refine ⟨?_, rfl⟩
  by_cases h : strFalsy email
  · simp [POST, Response.new, h]
  · by_cases hm : email.getD "" ∈ sMembers s
    · simp [POST, Response.new, h, hm]
    · simp [POST, Response.new, h, hm]

/-- A value that is not a string is never found by
`emails.includes(data.email)` over the stored strings. -/
theorem includesJS_eq_false (emails : List String) (v : JSValue)
    (h : v.isString = false) : includesJS emails v = false := by
  cases v <;> simp_all [includesJS, JSValue.isString]

/-- C9: the Subscribe validation is JavaScript falsiness of `data.email`
with no type check: the missing-fields path is taken exactly on falsy
values (absent, null, `false`, `0`, the empty string), every truthy value
passes on to the membership branch or to `sAdd`, and every truthy
non-string value — number, array, object — is handed to `sAdd` itself. -/
theorem subscribe_validation_js_falsiness (v : JSValue) (emails : List String) :
    (jsSubscribePath v emails = .missing ↔ truthy v = false)
    ∧ (truthy v = true →
        jsSubscribePath v emails = .already
        ∨ jsSubscribePath v emails = .inserted v)
    ∧ (truthy v = true → v.isString = false →
        jsSubscribePath v emails = .inserted v) := by
  refine ⟨?_, ?_, ?_⟩
  · by_cases h : truthy v
    · by_cases hi : includesJS emails v = true <;>
        simp [jsSubscribePath, h, hi]
    · have hv : truthy v = false := by
        cases hx : truthy v
        · rfl
        · exact absurd hx h
      simp [jsSubscribePath, hv]
  · intro h
    by_cases hi : includesJS emails v = true
    · left
      simp [jsSubscribePath, h, hi]
    · right
      simp [jsSubscribePath, h, hi]
  · intro h hs
    simp [jsSubscribePath, h, includesJS_eq_false emails v hs]

/-- C9 witness: the truthy non-string value `5` bypasses the validation
and reaches the insertion. -/
theorem subscribe_validation_js_falsiness_witness :
    truthy (.number 5) = true
    ∧ JSValue.isString (.number 5) = false
    ∧ jsSubscribePath (.number 5) ["a@x.com"] = .inserted (.number 5) :=
  ⟨by decide, rfl,
    (subscribe_validation_js_falsiness (.number 5) ["a@x.com"]).2.2
      (by decide) rfl⟩
